import Mathlib

/-!
Shallow embedding of the step-decision loop of `src/main.py` (function
`run_agent` together with its helpers `check_and_handle_captcha`,
`attempt_popup_bypass`, `detect_blocking_elements`,
`solve_cloudflare_turnstile` and the add-tool click classifier).

External effects (browser queries, vision-model calls, the solving
service) are modelled as per-step oracle inputs; every pure computation
of the Python code (string classification, counters, thresholds,
control flow of the loop) is translated directly.  Machine strings are
`String`; Python `str.lower`/`str.upper`/`in`/`strip` are modelled on
ASCII data, which covers every literal the loop compares against.
-/

namespace BrowserTool

/-- Python whitespace for `str.strip` and the regex class `\s` (ASCII part). -/
def isPySpace (c : Char) : Bool :=
  c = ' ' || c = '\t' || c = '\n' || c = '\r' || c = '\x0b' || c = '\x0c'

/-- Regex word character `\w` (ASCII part): letters, digits, underscore. -/
def isPyWord (c : Char) : Bool :=
  c.isAlphanum || c = '_'

/-- Python `str.lower` (ASCII). -/
def pyLower (s : String) : String := String.mk (s.toList.map Char.toLower)

/-- Python `str.upper` (ASCII). -/
def pyUpper (s : String) : String := String.mk (s.toList.map Char.toUpper)

/-- Consume a literal character sequence from the front of a list,
returning the remainder on success. -/
def dropLit : List Char → List Char → Option (List Char)
  | [], l => some l
  | _ :: _, [] => none
  | p :: ps, c :: cs => if c = p then dropLit ps cs else none

/-- Substring search on character lists. -/
def hasSub (needle : List Char) : List Char → Bool
  | [] => (dropLit needle []).isSome
  | c :: cs => (dropLit needle (c :: cs)).isSome || hasSub needle cs

/-- Python substring test `needle in hay`. -/
def pyIn (needle hay : String) : Bool :=
  hasSub needle.toList hay.toList

/-- Python `str.strip()` on a list of characters. -/
def pyStripL (l : List Char) : List Char :=
  ((l.dropWhile isPySpace).reverse.dropWhile isPySpace).reverse

/-- Python `str.strip()`. -/
def pyStrip (s : String) : String := String.mk (pyStripL s.toList)

/-- Python f-string formatting of an optional string (`None` prints as such). -/
def pyFormatOpt : Option String → String
  | none => "None"
  | some s => s

/-- Python `dict.get(key, default)` for string-valued fields. -/
def pyGetD (o : Option String) (d : String) : String := o.getD d

/-- Python `value or default` where the empty string is falsy. -/
def pyOrStr (o : Option String) (d : String) : String :=
  match o with
  | none => d
  | some s => if s = "" then d else s

/-- A single-quote character as a string (used inside loop messages). -/
def squote : String := String.mk ['\'']


/-- Tail of the matcher for `\s+\w`: after at least one whitespace has
been consumed, skip further whitespace and require a word character. -/
def wsWordTail : List Char → Bool
  | [] => false
  | c :: cs => if isPySpace c then wsWordTail cs else isPyWord c

/-- Matcher for `\s+\w` at the head of the list. -/
def wsWord : List Char → Bool
  | [] => false
  | c :: cs => isPySpace c && wsWordTail cs

/-- Tail of the matcher for `\s+to`. -/
def wsToTail : List Char → Bool
  | [] => false
  | c :: cs => if isPySpace c then wsToTail cs else (dropLit ['t', 'o'] (c :: cs)).isSome

/-- Matcher for `\s+to` at the head of the list. -/
def wsTo : List Char → Bool
  | [] => false
  | c :: cs => isPySpace c && wsToTail cs

/-- Matcher for `for\s+\w` at the current position (input pre-lowercased). -/
def forWsWordAt (l : List Char) : Bool :=
  match dropLit ['f', 'o', 'r'] l with
  | some r => wsWord r
  | none => false

/-- Matcher for `add\s+\w` at the current position (input pre-lowercased). -/
def addWsWordAt (l : List Char) : Bool :=
  match dropLit ['a', 'd', 'd'] l with
  | some r => wsWord r
  | none => false

/-- Matcher for `next\s+to` at the current position (input pre-lowercased). -/
def nextWsToAt (l : List Char) : Bool :=
  match dropLit ['n', 'e', 'x', 't'] l with
  | some r => wsTo r
  | none => false

/-- Matcher for a literal `(` at the current position. -/
def openParenAt : List Char → Bool
  | '(' :: _ => true
  | _ => false

/-- `re.search` for a position matcher: try the pattern at every position. -/
def searchAt (p : List Char → Bool) : List Char → Bool
  | [] => p []
  | c :: cs => p (c :: cs) || searchAt p cs

/-- Search for a position matcher without crossing a newline
(the regex `.` does not match a line break). -/
def searchNoNL (p : List Char → Bool) : List Char → Bool
  | [] => p []
  | c :: cs => p (c :: cs) || (c ≠ '\n' && searchNoNL p cs)

/-- `re.search` for a pattern of the form `\+.*X`: find a plus sign
followed, on the same line, by a position where `p` matches. -/
def searchPlus (p : List Char → Bool) : List Char → Bool
  | [] => false
  | c :: cs => (c = '+' && searchNoNL p cs) || searchPlus p cs

/-- Characters removed by the re.sub character class of the tool-name
extraction: the plus sign, parentheses, and both quote characters. -/
def isRemovedChar (c : Char) : Bool :=
  c = '+' || c = '(' || c = ')' || c = '\'' || c = '"'

/-- Python `str.replace(pat, "")` for a non-empty pattern, scanning left
to right without overlap.  Recursion is driven by a fuel counter that
starts at the length of the input; a consumed match strictly shortens
the remaining input, so the fuel never runs out. -/
def replaceAllFuel (p : Char) (ps : List Char) : Nat → List Char → List Char
  | 0, l => l
  | _ + 1, [] => []
  | fuel + 1, c :: cs =>
    match dropLit (p :: ps) (c :: cs) with
    | some r => replaceAllFuel p ps fuel r
    | none => c :: replaceAllFuel p ps fuel cs

/-- Python `str.replace(pat, "")` for a non-empty pattern. -/
def replaceAllEmpty (p : Char) (ps : List Char) (l : List Char) : List Char :=
  replaceAllFuel p ps l.length l

/-- Classifier from `run_agent` (main.py lines 1782-1789): does the click
label denote an add-tool click?  The disjuncts are, in order: the literal
labels `+`, quoted `+`; the regexes `\+.*for\s+\w`, `add\s+\w`,
`\+.*next\s+to`, `\+.*\(` (all IGNORECASE, hence run on the lowercased
label); and the known tool name appearing in the label together with a
plus sign. -/
def is_add_tool_click (target_tool_name : Option String) (label : String) : Bool :=
  let ll := (pyLower label).toList
  label = "+" || label = squote ++ "+" ++ squote || label = "\"+\"" ||
  searchPlus forWsWordAt ll ||
  searchAt addWsWordAt ll ||
  searchPlus nextWsToAt ll ||
  searchPlus openParenAt ll ||
  (match target_tool_name with
   | some t => pyIn (pyLower t) (pyLower label) && pyIn "+" label
   | none => false)

/-- Tool-name extraction from the click label (main.py lines 1798-1803):
strip the plus sign, parentheses and quote characters, then remove the noise words
`for`, `next to`, `add`, `click`, `button` (each removal followed by a
strip), and accept the result when longer than two characters. -/
def extract_tool_from_label (label : String) : Option String :=
  let l0 := pyStripL (label.toList.filter (fun c => !isRemovedChar c))
  let l1 := pyStripL (replaceAllEmpty 'f' ['o', 'r'] l0)
  let l2 := pyStripL (replaceAllEmpty 'n' ['e', 'x', 't', ' ', 't', 'o'] l1)
  let l3 := pyStripL (replaceAllEmpty 'a' ['d', 'd'] l2)
  let l4 := pyStripL (replaceAllEmpty 'c' ['l', 'i', 'c', 'k'] l3)
  let l5 := pyStripL (replaceAllEmpty 'b' ['u', 't', 't', 'o', 'n'] l4)
  if l5.length > 2 then some (String.mk l5) else none

/-- Password classification of a `type` action (main.py lines 2093-2097). -/
def is_password_text (reason text_to_type : String) : Bool :=
  (pyIn "password" (pyLower reason) || pyIn "pass" (pyLower reason)) ||
  pyIn "password" (pyLower text_to_type) ||
  (text_to_type.length ≥ 6 &&
    text_to_type.toList.any (fun c => c = '@' || c = '!' || c = '#' || c = '$' || c = '%'))

/-- Email classification of a `type` action (main.py line 2098). -/
def is_email_text (text_to_type : String) : Bool :=
  pyIn "@" text_to_type && pyIn "." text_to_type

/-- Login-task detection (main.py lines 1521-1522). -/
def task_involves_login (prompt : String) : Bool :=
  pyIn "login" (pyLower prompt) || pyIn "sign in" (pyLower prompt) ||
  pyIn "log in" (pyLower prompt) || pyIn "signin" (pyLower prompt)

/-- Outcome of one call to `detect_and_solve_captcha`: the function
returns a `(solved, error)` pair and never raises (its body is wrapped in
a catch-all that returns `(False, error-text)`). -/
structure SolveOut where
  solved : Bool
  error : Option String
deriving DecidableEq

/-- Oracle inputs of one call to `check_and_handle_captcha`: the result of
the first solving attempt, whether a CAPTCHA indicator element is still
visible on the page, and the result of the retry attempt. -/
structure CaptchaEnv where
  first_solve : SolveOut
  captcha_visible : Bool
  second_solve : SolveOut
deriving DecidableEq

/-- `check_and_handle_captcha` (main.py lines 562-584).  It consults the
solver, re-checks visibility and retries once, but on every path returns
`(False, None)` — including the path printing that it continues despite
an unsolved CAPTCHA. -/
def check_and_handle_captcha (env : CaptchaEnv) : Bool × Option String :=
  if env.first_solve.solved then (false, none)
  else if env.captcha_visible then
    if env.second_solve.solved then (false, none)
    else (false, none)
  else (false, none)

/-- Verdict dictionary produced by `detect_blocking_elements`; the three
fields are read with `dict.get`, so the string fields are optional. -/
structure BlockerVerdict where
  blocked : Bool
  blocker_type : Option String
  reason : Option String
deriving DecidableEq

/-- Raw outcome of the vision call inside `detect_blocking_elements`. -/
inductive BlockerCall
  | exn
  | emptyResp
  | parseError
  | ok (v : BlockerVerdict)
deriving DecidableEq

/-- `detect_blocking_elements` (main.py lines 612-642): any failure of the
call or of JSON parsing degrades to a non-blocked verdict. -/
def detect_blocking_elements : BlockerCall → BlockerVerdict
  | .exn => ⟨false, some "none", some "detection failed"⟩
  | .emptyResp => ⟨false, some "none", some "detection failed"⟩
  | .parseError => ⟨false, some "none", some "JSON parsing failed"⟩
  | .ok v => v

/-- Outcome of the `createTask` request in `solve_cloudflare_turnstile`. -/
inductive CreateOut
  | exnOut (msg : String)
  | errorResp (desc : Option String)
  | taskMade (task_id : String)
deriving DecidableEq

/-- One `getTaskResult` poll answer. -/
inductive PollOut
  | ready (token : Option String)
  | failedOut (desc : Option String)
  | pending
deriving DecidableEq

/-- Result dictionary of the solving helpers. -/
structure SolveRes where
  success : Bool
  solution : Option String
  error : Option String
deriving DecidableEq

/-- The poll loop of `solve_cloudflare_turnstile` (main.py lines 85-100):
at most 60 polls two seconds apart, ending in success, failure, or the
timeout result. -/
def turnstile_poll (poll : Nat → PollOut) (attempt fuel : Nat) : SolveRes :=
  match fuel with
  | 0 => ⟨false, none, some "Timeout waiting for solution"⟩
  | fuel + 1 =>
    match poll attempt with
    | .ready token => ⟨true, token, none⟩
    | .failedOut desc => ⟨false, none, desc⟩
    | .pending => turnstile_poll poll (attempt + 1) fuel

/-- `solve_cloudflare_turnstile` (main.py lines 64-102). -/
def solve_cloudflare_turnstile (create : CreateOut) (poll : Nat → PollOut) : SolveRes :=
  match create with
  | .exnOut msg => ⟨false, none, some msg⟩
  | .errorResp desc => ⟨false, none, desc⟩
  | .taskMade _ => turnstile_poll poll 0 60

/-- Decision dictionary parsed from the model response; every field is
accessed with `dict.get` (or direct indexing for `action`), so all fields
are optional. -/
structure Decision where
  action : Option String
  label : Option String
  text_to_type : Option String
  reason : Option String
deriving DecidableEq

/-- Raw outcome of the per-step decision call (main.py lines 1623-1656):
empty content and transport errors retry the loop, an unparseable body is
mapped to a literal `done` decision. -/
inductive ModelResp
  | empty
  | exn
  | parseError
  | ok (d : Decision)
deriving DecidableEq

/-- Raw outcome of a secondary verification call: an exception, or a
response body (which may itself be absent). -/
inductive CallOut
  | exn
  | resp (content : Option String)
deriving DecidableEq

/-- Outcome of one iteration of the click retry loop
(main.py lines 1996-2040). -/
inductive ClickAttempt
  | raises
  | clickedExn
  | clickedGone
  | clickedStill (visible : Bool)
deriving DecidableEq

/-- The click retry loop (main.py lines 1995-2040): `click_attempts`
starts at 0 and is incremented at the top of each iteration, so the body
runs with values 1, 2, 3; a throwing click retries, a click whose target
disappeared (or whose visibility check itself threw) counts as success,
and a target still visible before the third attempt triggers a retry. -/
def click_retry_loop (outs : Nat → ClickAttempt) : Nat → Nat → Bool
  | 0, _ => false
  | fuel + 1, k =>
    match outs k with
    | .raises => click_retry_loop outs fuel (k + 1)
    | .clickedExn => true
    | .clickedGone => true
    | .clickedStill visible =>
      if k < 3 then
        if visible then click_retry_loop outs fuel (k + 1) else true
      else true

/-- Oracle inputs of the action-execution phase of one step. -/
structure ExecEnv where
  add_clicked : Bool
  add_dom_changed : Bool
  plus_clicked : Bool
  panel_opened : Bool
  tool_found_in_panel : Bool
  panel_tool_clicked : Bool
  element_found : Bool
  click_attempts : Nat → ClickAttempt
  input_found : Bool
  fill_ok : Bool

/-- All oracle inputs consumed by one iteration of the main loop. -/
structure StepEnv where
  uncaught : Bool
  uncaught_msg : String
  captcha : CaptchaEnv
  blocker_call : BlockerCall
  bypass_success : Bool
  model_resp : ModelResp
  verification : CallOut
  early_check : CallOut
  exec : ExecEnv

/-- The mutable run-scoped variables of `run_agent`
(main.py lines 1365-1377). -/
structure LoopSt where
  consecutive_failures : Nat
  last_action : Option String
  last_label : Option String
  action_repeat_count : Nat
  blocker_detected : Bool
  tools_panel_open : Bool
  plus_click_attempts : Nat
  final_status : String
  final_message : String
deriving DecidableEq

/-- Initial loop state (main.py lines 1365-1377). -/
def init_state : LoopSt where
  consecutive_failures := 0
  last_action := none
  last_label := none
  action_repeat_count := 0
  blocker_detected := false
  tools_panel_open := false
  plus_click_attempts := 0
  final_status := "failed"
  final_message := "Task timed out."

/-- Constants of one run: the task prompt and the tool name extracted
from it by `extract_tool_name_from_prompt` before the loop starts. -/
structure RunCfg where
  prompt : String
  target_tool_name : Option String

/-- Result of one loop iteration: fall through to the next step, break
out of the loop with the final variables assigned, or propagate an
uncaught exception to the top-level handler. -/
inductive StepOut
  | next (st : LoopSt)
  | brk (st : LoopSt)
  | fatal (emsg : String)
deriving DecidableEq

/-- The response dictionary of `run_agent` restricted to the fields the
loop determines. -/
structure RunResult where
  status : String
  result : String
deriving DecidableEq

/-- Message of the `KeyError` raised by `decision[...]` when the parsed
decision has no `action` key. -/
def key_error_action : String := String.mk ['\'', 'a', 'c', 't', 'i', 'o', 'n', '\'']

/-- The `break` at main.py lines 1755-1770: final screenshot, then the
success assignment pair. -/
def finish_success (st : LoopSt) (reason : String) : StepOut :=
  .brk { st with final_message := "Success: " ++ reason, final_status := "success" }

/-- The early-finish double check for `done` at steps below four
(main.py lines 1731-1753) followed by the success break: a `NO` answer
increments `consecutive_failures` and continues the loop, any exception
of the check is swallowed. -/
def early_and_finish (env : StepEnv) (step : Nat) (st : LoopSt) (reason : String) : StepOut :=
  if step < 4 then
    match env.early_check with
    | .exn => finish_success st reason
    | .resp c =>
      let verification := pyOrStr c "YES"
      if pyIn "NO" (pyUpper verification) then
        .next { st with consecutive_failures := st.consecutive_failures + 1 }
      else finish_success st reason
  else finish_success st reason

/-- The blocker-keyword test on the rationale of a `done` decision
(main.py lines 1678-1679). -/
def blocker_keyword_hit (reason : String) : Bool :=
  let rl := pyLower reason
  (pyIn "blocked" rl || pyIn "robot" rl || pyIn "login" rl) && !(pyIn "captcha" rl)

/-- The `done` branch of the loop (main.py lines 1677-1770): the
blocker-keyword short circuit, the COMPLETE/INCOMPLETE/BLOCKED
verification call (whose exception is swallowed, and whose missing or
empty content defaults to COMPLETE), then the early-finish check and the
success break. -/
def done_branch (env : StepEnv) (step : Nat) (st : LoopSt) (reason : String) : StepOut :=
  if blocker_keyword_hit reason then
    .brk { st with final_message := "Failed: " ++ reason, final_status := "failed",
                   blocker_detected := true }
  else
    match env.verification with
    | .exn => early_and_finish env step st reason
    | .resp content =>
      let verification_result := pyOrStr content "COMPLETE"
      if pyIn "COMPLETE" (pyUpper verification_result) then
        early_and_finish env step st reason
      else if pyIn "BLOCKED" (pyUpper verification_result) then
        .brk { st with final_message := "Failed: " ++ verification_result,
                       final_status := "failed", blocker_detected := true }
      else
        let st := { st with consecutive_failures := st.consecutive_failures + 1 }
        if st.action_repeat_count ≥ 3 then
          .brk { st with
                 final_message := "Failed: Agent completed task incorrectly - " ++
                                  verification_result,
                 final_status := "failed" }
        else .next st

/-- The `plus_click_attempts >= 5` stop inside the add-tool branch
(main.py lines 1902-1906). -/
def add_halt_check (st : LoopSt) (succ : Bool) : Sum LoopSt (Bool × LoopSt) :=
  if st.plus_click_attempts ≥ 5 then
    .inl { st with
           final_message := "Failed: Could not locate the tool add button after 5 attempts",
           final_status := "failed" }
  else .inr (succ, st)

/-- The action-execution phase (main.py lines 1772-2210): the add-tool
click arms (with their DOM-snapshot bookkeeping collapsed to oracle
booleans), the open-panel tool click, the normal click resolution cascade
(collapsed to the `element_found` oracle) with its retry loop, and the
`type` branch (input resolution collapsed to oracles).  The catch-all at
line 2208 maps any exception of a branch to a failed action.  Returns
either the loop break of the add-button give-up, or the
`action_succeeded` flag with the updated state. -/
def exec_phase (cfg : RunCfg) (env : StepEnv) (st : LoopSt) (d : Decision) (a : String) :
    Sum LoopSt (Bool × LoopSt) :=
  if a = "click" then
    let label := pyStrip (pyGetD d.label "")
    if is_add_tool_click cfg.target_tool_name label then
      let tool_to_add : Option String :=
        match cfg.target_tool_name with
        | some t => some t
        | none => extract_tool_from_label label
      match tool_to_add with
      | some _ =>
        if env.exec.add_clicked then
          let st := { st with action_repeat_count := 0 }
          let st :=
            if env.exec.add_dom_changed then
              { st with tools_panel_open := false, plus_click_attempts := 0 }
            else { st with plus_click_attempts := st.plus_click_attempts + 1 }
          add_halt_check st true
        else
          add_halt_check { st with plus_click_attempts := st.plus_click_attempts + 1 } false
      | none =>
        if env.exec.plus_clicked then
          let st := { st with action_repeat_count := 0 }
          let st :=
            if env.exec.panel_opened then
              let st := { st with tools_panel_open := true, plus_click_attempts := 0 }
              match cfg.target_tool_name with
              | some _ =>
                if env.exec.tool_found_in_panel then
                  { st with tools_panel_open := false, action_repeat_count := 0 }
                else st
              | none => st
            else { st with plus_click_attempts := st.plus_click_attempts + 1 }
          add_halt_check st true
        else
          add_halt_check { st with plus_click_attempts := st.plus_click_attempts + 1 } false
    else
      if st.tools_panel_open && env.exec.panel_tool_clicked then
        .inr (true, { st with tools_panel_open := false, action_repeat_count := 0 })
      else
        if env.exec.element_found then
          .inr (click_retry_loop env.exec.click_attempts 3 1, st)
        else .inr (false, st)
  else if a = "type" then
    .inr (env.exec.input_found && env.exec.fill_ok, st)
  else .inr (false, st)

/-- Signature tracking update (main.py lines 1664-1670): the current
`action:label` pair is compared against the f-string of the previous
pair (where a missing previous value prints as None). -/
def update_signature (st : LoopSt) (current_action current_label : String) : LoopSt :=
  if current_action ++ ":" ++ current_label =
     pyFormatOpt st.last_action ++ ":" ++ pyFormatOpt st.last_label then
    { st with action_repeat_count := st.action_repeat_count + 1 }
  else
    { st with action_repeat_count := 0, last_action := some current_action,
              last_label := some current_label }

/-- Everything after a decision value is in hand (main.py lines
1658-2220): signature tracking, the stuck-in-loop stop, the `done`
branch, the execution phase, and the consecutive-failure accounting. -/
def after_decision (cfg : RunCfg) (env : StepEnv) (step : Nat) (st : LoopSt)
    (d : Decision) : StepOut :=
  let current_action := pyGetD d.action "unknown"
  let current_label := pyGetD d.label ""
  let reason := pyGetD d.reason "No reason provided"
  let st := update_signature st current_action current_label
  if st.action_repeat_count ≥ 7 then
    .brk { st with
           final_message := "Failed: Stuck in loop on " ++ squote ++
                            current_action ++ ":" ++ current_label ++ squote }
  else
    match d.action with
    | none => .fatal key_error_action
    | some a =>
      if a = "done" then done_branch env step st reason
      else
        match exec_phase cfg env st d a with
        | .inl st' => .brk st'
        | .inr (succ, st') =>
          let st' :=
            if succ then { st' with consecutive_failures := 0 }
            else { st' with consecutive_failures := st'.consecutive_failures + 1 }
          if st'.consecutive_failures ≥ 8 then
            .brk { st' with
                   final_message := "Failed: Too many consecutive failures (" ++
                                    toString st'.consecutive_failures ++ ")" }
          else .next st'

/-- The decision call of one step (main.py lines 1623-1656): empty
content or a transport error sleeps and continues the loop, an
unparseable body becomes a literal `done` decision with reason
`JSON parsing failed`. -/
def decision_phase (cfg : RunCfg) (env : StepEnv) (step : Nat) (st : LoopSt) : StepOut :=
  match env.model_resp with
  | .empty => .next st
  | .exn => .next st
  | .parseError =>
    after_decision cfg env step st ⟨some "done", none, none, some "JSON parsing failed"⟩
  | .ok d => after_decision cfg env step st d

/-- The conditional blocker check of one step (main.py lines 1520-1549):
runs every third step or after more than two consecutive failures, is
skipped for login tasks, terminates the run on an undismissable login
wall, continues the loop (resetting `consecutive_failures`) on a
dismissed one, continues on cookie banners, and otherwise falls through
to the decision call. -/
def blocker_phase (cfg : RunCfg) (env : StepEnv) (step : Nat) (st : LoopSt) : StepOut :=
  if step % 3 = 0 || st.consecutive_failures > 2 then
    if !task_involves_login cfg.prompt then
      let bc := detect_blocking_elements env.blocker_call
      if bc.blocked then
        if bc.blocker_type = some "login" then
          if !env.bypass_success then
            .brk { st with
                   final_message := "Failed: Login required - " ++ pyFormatOpt bc.reason,
                   final_status := "failed", blocker_detected := true }
          else .next { st with consecutive_failures := 0 }
        else if bc.blocker_type = some "cookies" then .next st
        else decision_phase cfg env step st
      else decision_phase cfg env step st
    else decision_phase cfg env step st
  else decision_phase cfg env step st

/-- One iteration of the main loop (main.py lines 1494-2220): the
screenshot is captured and persisted (no loop-state effect), the CAPTCHA
gate runs, then the blocker check, then the decision and its handling.
The `uncaught` oracle stands for an exception escaping the iteration to
the top-level handler. -/
def run_step (cfg : RunCfg) (env : StepEnv) (step : Nat) (st : LoopSt) : StepOut :=
  if env.uncaught then .fatal env.uncaught_msg
  else
    let r := check_and_handle_captcha env.captcha
    if r.1 then
      .brk { st with final_message := "Failed: " ++ pyFormatOpt r.2,
                     final_status := "failed", blocker_detected := true }
    else blocker_phase cfg env step st

/-- The `for step in range(1, 51)` loop (main.py line 1494): iterate over
the given step indices, stopping at a break or an uncaught exception. -/
def run_loop (cfg : RunCfg) (env : Nat → StepEnv) : List Nat → LoopSt → Except String LoopSt
  | [], st => .ok st
  | k :: ks, st =>
    match run_step cfg (env k) k st with
    | .next st' => run_loop cfg env ks st'
    | .brk st' => .ok st'
    | .fatal m => .error m

/-- Post-loop finalization (main.py lines 2222-2255): a failed run whose
failure was not attributed to a blocker has its message replaced by the
failure-analysis text (the screenshot is always available, since every
loop path captures it before any break); an uncaught exception yields the
error response. -/
def run_finalize (analysis : String) : Except String LoopSt → RunResult
  | .ok st =>
    if st.final_status = "failed" && !st.blocker_detected then
      ⟨st.final_status, "Failed: " ++ analysis⟩
    else ⟨st.final_status, st.final_message⟩
  | .error e => ⟨"error", "System Error: " ++ e⟩

/-- The loop-and-finalization core of `run_agent`. -/
def run_agent_model (cfg : RunCfg) (env : Nat → StepEnv) (analysis : String) : RunResult :=
  run_finalize analysis (run_loop cfg env (List.range' 1 50) init_state)

/-! Concrete environments used to exercise the model. -/

/-- A CAPTCHA oracle reporting a clean page. -/
def benign_captcha : CaptchaEnv := ⟨⟨false, none⟩, false, ⟨false, none⟩⟩

/-- An execution oracle on which every interaction fails. -/
def benign_exec : ExecEnv where
  add_clicked := false
  add_dom_changed := false
  plus_clicked := false
  panel_opened := false
  tool_found_in_panel := false
  panel_tool_clicked := false
  element_found := false
  click_attempts := fun _ => .raises
  input_found := false
  fill_ok := false

/-- A step environment with a clean page and an empty model response. -/
def base_env : StepEnv where
  uncaught := false
  uncaught_msg := ""
  captcha := benign_captcha
  blocker_call := .ok ⟨false, some "none", some "page is clear"⟩
  bypass_success := false
  model_resp := .empty
  verification := .exn
  early_check := .exn
  exec := benign_exec

/-- A run configuration whose prompt mentions neither a login flow nor a
tool name. -/
def demo_cfg : RunCfg := ⟨"open the shop and put the first result in the cart", none⟩

deriving instance DecidableEq for Except

/-- An execution oracle on which a normal click resolves and succeeds at
the first attempt. -/
def clickok_exec : ExecEnv :=
  { benign_exec with element_found := true, click_attempts := fun _ => .clickedGone }

/-- A step whose decision is `done` and whose verification answers in the
INCOMPLETE form. -/
def c1_env : StepEnv :=
  { base_env with
    model_resp := .ok ⟨some "done", some "", some "", some "Task finished"⟩,
    verification := .resp (some "INCOMPLETE: the item was not added to the cart") }

/-- A step whose decision output is non-empty but unparseable and whose
verification answers COMPLETE. -/
def c2_env : StepEnv :=
  { base_env with model_resp := .parseError, verification := .resp (some "COMPLETE") }

/-- A CAPTCHA oracle on which the challenge is visible and both solving
attempts fail. -/
def c3_env : CaptchaEnv :=
  ⟨⟨false, some "CapSolver failed: Timeout waiting for solution"⟩, true,
   ⟨false, some "CapSolver failed: Timeout waiting for solution"⟩⟩

/-- A two-step run: a dismissable login wall at step 3, then a verified
`done` at step 4. -/
def c4_env : Nat → StepEnv := fun k =>
  if k = 3 then
    { base_env with
      blocker_call := .ok ⟨true, some "login", some "Login popup detected"⟩,
      bypass_success := true }
  else if k = 4 then
    { base_env with
      model_resp := .ok ⟨some "done", some "", some "", some "reached step four"⟩,
      verification := .resp (some "COMPLETE") }
  else base_env

/-- A run issuing the identical click decision on steps 1-7 (each click
succeeding), then a verified `done` at step 8. -/
def c5cex_env : Nat → StepEnv := fun k =>
  if k ≤ 7 then
    { base_env with
      model_resp := .ok ⟨some "click", some "Next", some "", some "go to the next page"⟩,
      exec := clickok_exec }
  else if k = 8 then
    { base_env with
      model_resp := .ok ⟨some "done", some "", some "", some "all results were processed"⟩,
      verification := .resp (some "COMPLETE") }
  else base_env

/-- A run whose decision differs on every step and whose executor fails
on every step. -/
def c6cex_env : Nat → StepEnv := fun k =>
  { base_env with
    model_resp := .ok ⟨some "click", some ("Button " ++ toString k), some "", some "try this"⟩ }

/-- The identical click decision stream used to exercise the stall stop. -/
def c5w_env : Nat → StepEnv := fun _ =>
  { base_env with
    model_resp := .ok ⟨some "click", some "Next", some "", some "advance"⟩,
    exec := clickok_exec }

/-- A step whose `done` rationale mentions a login wall. -/
def c7w_env : StepEnv :=
  { base_env with
    model_resp := .ok ⟨some "done", some "", some "", some "A login wall is blocking progress"⟩ }

/-- A step whose `done` verification call raises. -/
def c9w_env : StepEnv :=
  { base_env with
    model_resp := .ok ⟨some "done", some "", some "", some "the order is placed"⟩,
    verification := .exn }

/-! Specification predicates used by the trace-level theorems. -/

/-- The add-button click outcome that the add-tool branch consults: the
card finder when a tool name is known (from the prompt or the label),
the generic plus finder otherwise. -/
def add_click_succeeded (cfg : RunCfg) (env : StepEnv) (label : String) : Bool :=
  match (match cfg.target_tool_name with
         | some t => some t
         | none => extract_tool_from_label label) with
  | some _ => env.exec.add_clicked
  | none => env.exec.plus_clicked

/-- The executor verdict of a normal click step. -/
def normal_click_success (env : StepEnv) : Bool :=
  env.exec.element_found && click_retry_loop env.exec.click_attempts 3 1

/-- A stretch of steps on which the decision is a fresh normal click each
time (signature differing from the previous one) and the executor fails
each time. -/
def varied_failing (cfg : RunCfg) (envf : Nat → StepEnv) (ds : Nat → Decision) :
    List Nat → String → Prop
  | [], _ => True
  | k :: ks, prev =>
    (envf k).uncaught = false ∧
    (detect_blocking_elements (envf k).blocker_call).blocked = false ∧
    (envf k).model_resp = .ok (ds k) ∧
    (ds k).action = some "click" ∧
    is_add_tool_click cfg.target_tool_name (pyStrip (pyGetD (ds k).label "")) = false ∧
    normal_click_success (envf k) = false ∧
    "click" ++ ":" ++ pyGetD (ds k).label "" ≠ prev ∧
    varied_failing cfg envf ds ks ("click" ++ ":" ++ pyGetD (ds k).label "")

/-- A stretch of steps on which the decision is the same add-tool click
each time and the add-button click succeeds each time. -/
def add_success_streak (cfg : RunCfg) (envf : Nat → StepEnv) (d : Decision) : List Nat → Prop
  | [] => True
  | k :: ks =>
    (envf k).uncaught = false ∧
    (detect_blocking_elements (envf k).blocker_call).blocked = false ∧
    (envf k).model_resp = .ok d ∧
    add_click_succeeded cfg (envf k) (pyStrip (pyGetD d.label "")) = true ∧
    add_success_streak cfg envf d ks

/-- The two loop statuses that a normally finished run can carry. -/
def statusOK (s : String) : Prop := s = "failed" ∨ s = "success"

/-- The status invariant lifted to the result of the execution phase. -/
def execOutOK : Sum LoopSt (Bool × LoopSt) → Prop
  | .inl st => statusOK st.final_status
  | .inr (_, st) => statusOK st.final_status

/-- The status invariant lifted to the result of one loop iteration. -/
def stepOutOK : StepOut → Prop
  | .next st => statusOK st.final_status
  | .brk st => statusOK st.final_status
  | .fatal _ => True

/-- Decisions for a varied failing stretch: a different label each step. -/
def c6w_ds : Nat → Decision := fun k => ⟨some "click", some ("B" ++ toString k), some "", some "probe"⟩

/-- Environments for a varied failing stretch. -/
def c6w_env : Nat → StepEnv := fun k => { base_env with model_resp := .ok (c6w_ds k) }

/-- A repeated plus-button decision whose generic add click succeeds and
opens the panel each time. -/
def c10w_env : Nat → StepEnv := fun _ =>
  { base_env with
    model_resp := .ok ⟨some "click", some "+", some "", some "open the tools panel"⟩,
    exec := { benign_exec with plus_clicked := true, panel_opened := true } }

/-! Helper lemmas about the phase structure of one step. -/

theorem check_and_handle_captcha_const (cenv : CaptchaEnv) :
    check_and_handle_captcha cenv = (false, none) := by
  unfold check_and_handle_captcha
  repeat' split
  all_goals rfl

theorem run_step_eq_blocker_phase (cfg : RunCfg) (env : StepEnv) (step : Nat) (st : LoopSt)
    (h : env.uncaught = false) :
    run_step cfg env step st = blocker_phase cfg env step st := by
  simp [run_step, h, check_and_handle_captcha_const]

theorem blocker_phase_falls_through (cfg : RunCfg) (env : StepEnv) (step : Nat) (st : LoopSt)
    (h : (detect_blocking_elements env.blocker_call).blocked = false) :
    blocker_phase cfg env step st = decision_phase cfg env step st := by
  unfold blocker_phase
  repeat' split
  all_goals simp_all

theorem run_step_to_decision (cfg : RunCfg) (env : StepEnv) (step : Nat) (st : LoopSt)
    (h : env.uncaught = false)
    (hb : (detect_blocking_elements env.blocker_call).blocked = false) :
    run_step cfg env step st = decision_phase cfg env step st := by
  rw [run_step_eq_blocker_phase cfg env step st h, blocker_phase_falls_through cfg env step st hb]

@[simp] theorem update_signature_panel (st : LoopSt) (a l : String) :
    (update_signature st a l).tools_panel_open = st.tools_panel_open := by
  unfold update_signature; split <;> rfl

@[simp] theorem update_signature_status (st : LoopSt) (a l : String) :
    (update_signature st a l).final_status = st.final_status := by
  unfold update_signature; split <;> rfl

@[simp] theorem update_signature_message (st : LoopSt) (a l : String) :
    (update_signature st a l).final_message = st.final_message := by
  unfold update_signature; split <;> rfl

@[simp] theorem update_signature_blocker (st : LoopSt) (a l : String) :
    (update_signature st a l).blocker_detected = st.blocker_detected := by
  unfold update_signature; split <;> rfl

@[simp] theorem update_signature_failures (st : LoopSt) (a l : String) :
    (update_signature st a l).consecutive_failures = st.consecutive_failures := by
  unfold update_signature; split <;> rfl

@[simp] theorem update_signature_plus (st : LoopSt) (a l : String) :
    (update_signature st a l).plus_click_attempts = st.plus_click_attempts := by
  unfold update_signature; split <;> rfl

theorem update_signature_matched (st : LoopSt) (a l : String)
    (h : a ++ ":" ++ l = pyFormatOpt st.last_action ++ ":" ++ pyFormatOpt st.last_label) :
    update_signature st a l = { st with action_repeat_count := st.action_repeat_count + 1 } := by
  unfold update_signature; rw [if_pos h]

theorem update_signature_fresh (st : LoopSt) (a l : String)
    (h : a ++ ":" ++ l ≠ pyFormatOpt st.last_action ++ ":" ++ pyFormatOpt st.last_label) :
    update_signature st a l =
      { st with action_repeat_count := 0, last_action := some a, last_label := some l } := by
  unfold update_signature; rw [if_neg h]

theorem run_step_done_branch (cfg : RunCfg) (env : StepEnv) (step : Nat) (st : LoopSt)
    (d : Decision)
    (hu : env.uncaught = false)
    (hb : (detect_blocking_elements env.blocker_call).blocked = false)
    (hm : env.model_resp = .ok d)
    (ha : d.action = some "done")
    (hr : (update_signature st "done" (pyGetD d.label "")).action_repeat_count < 7) :
    run_step cfg env step st =
      done_branch env step (update_signature st "done" (pyGetD d.label ""))
        (pyGetD d.reason "No reason provided") := by
  rw [run_step_to_decision cfg env step st hu hb]
  simp only [decision_phase, hm]
  unfold after_decision
  rw [ha]
  simp only [pyGetD] at hr
  simp only [pyGetD, Option.getD_some]
  rw [if_neg (by omega)]
  simp

theorem run_step_exec_branch (cfg : RunCfg) (env : StepEnv) (step : Nat) (st : LoopSt)
    (d : Decision) (a : String)
    (hu : env.uncaught = false)
    (hb : (detect_blocking_elements env.blocker_call).blocked = false)
    (hm : env.model_resp = .ok d)
    (ha : d.action = some a)
    (hnd : a ≠ "done")
    (hr : (update_signature st a (pyGetD d.label "")).action_repeat_count < 7) :
    run_step cfg env step st =
      (match exec_phase cfg env (update_signature st a (pyGetD d.label "")) d a with
       | .inl st' => .brk st'
       | .inr (succ, st') =>
         let st' :=
           if succ then { st' with consecutive_failures := 0 }
           else { st' with consecutive_failures := st'.consecutive_failures + 1 }
         if st'.consecutive_failures ≥ 8 then
           .brk { st' with
                  final_message := "Failed: Too many consecutive failures (" ++
                                   toString st'.consecutive_failures ++ ")" }
         else .next st') := by
  rw [run_step_to_decision cfg env step st hu hb]
  simp only [decision_phase, hm]
  unfold after_decision
  rw [ha]
  simp only [pyGetD] at hr
  simp only [pyGetD, Option.getD_some]
  rw [if_neg (by omega)]
  simp [hnd]

theorem run_step_stall (cfg : RunCfg) (env : StepEnv) (step : Nat) (st : LoopSt)
    (d : Decision) (ca : String)
    (hu : env.uncaught = false)
    (hb : (detect_blocking_elements env.blocker_call).blocked = false)
    (hm : env.model_resp = .ok d)
    (ha : d.action = some ca)
    (hr : (update_signature st ca (pyGetD d.label "")).action_repeat_count ≥ 7) :
    run_step cfg env step st =
      .brk { update_signature st ca (pyGetD d.label "") with
             final_message := "Failed: Stuck in loop on " ++ squote ++ ca ++ ":" ++
               pyGetD d.label "" ++ squote } := by
  rw [run_step_to_decision cfg env step st hu hb]
  simp only [decision_phase, hm]
  unfold after_decision
  rw [ha]
  simp only [pyGetD] at hr ⊢
  simp only [Option.getD_some]
  rw [if_pos hr]

theorem exec_phase_normal_click (cfg : RunCfg) (env : StepEnv) (st : LoopSt) (d : Decision)
    (hna : is_add_tool_click cfg.target_tool_name (pyStrip (pyGetD d.label "")) = false)
    (hp : st.tools_panel_open = false) :
    exec_phase cfg env st d "click" = .inr (normal_click_success env, st) := by
  unfold exec_phase
  rw [if_pos rfl]
  rw [if_neg (by simp [hna])]
  rw [if_neg (by simp [hp])]
  cases he : env.exec.element_found <;> simp [he, normal_click_success]

theorem run_step_normal_click (cfg : RunCfg) (env : StepEnv) (step : Nat) (st : LoopSt)
    (d : Decision)
    (hu : env.uncaught = false)
    (hb : (detect_blocking_elements env.blocker_call).blocked = false)
    (hm : env.model_resp = .ok d)
    (ha : d.action = some "click")
    (hna : is_add_tool_click cfg.target_tool_name (pyStrip (pyGetD d.label "")) = false)
    (hp : st.tools_panel_open = false)
    (hr : (update_signature st "click" (pyGetD d.label "")).action_repeat_count < 7) :
    run_step cfg env step st =
      (let st1 := update_signature st "click" (pyGetD d.label "")
       let st2 :=
         if normal_click_success env then { st1 with consecutive_failures := 0 }
         else { st1 with consecutive_failures := st1.consecutive_failures + 1 }
       if st2.consecutive_failures ≥ 8 then
         .brk { st2 with
                final_message := "Failed: Too many consecutive failures (" ++
                                 toString st2.consecutive_failures ++ ")" }
       else .next st2) := by
  rw [run_step_exec_branch cfg env step st d "click" hu hb hm ha (by decide) hr]
  rw [exec_phase_normal_click cfg env _ d hna (by simp [hp])]

theorem run_step_normal_click_s (cfg : RunCfg) (env : StepEnv) (step : Nat) (st : LoopSt)
    (d : Decision)
    (hu : env.uncaught = false)
    (hb : (detect_blocking_elements env.blocker_call).blocked = false)
    (hm : env.model_resp = .ok d)
    (ha : d.action = some "click")
    (hna : is_add_tool_click cfg.target_tool_name (pyStrip (pyGetD d.label "")) = false)
    (hp : st.tools_panel_open = false)
    (hr : (update_signature st "click" (pyGetD d.label "")).action_repeat_count < 7)
    (hsucc : normal_click_success env = true) :
    run_step cfg env step st =
      .next { update_signature st "click" (pyGetD d.label "") with consecutive_failures := 0 } := by
  rw [run_step_normal_click cfg env step st d hu hb hm ha hna hp hr]
  simp [hsucc]

theorem run_step_normal_click_f (cfg : RunCfg) (env : StepEnv) (step : Nat) (st : LoopSt)
    (d : Decision)
    (hu : env.uncaught = false)
    (hb : (detect_blocking_elements env.blocker_call).blocked = false)
    (hm : env.model_resp = .ok d)
    (ha : d.action = some "click")
    (hna : is_add_tool_click cfg.target_tool_name (pyStrip (pyGetD d.label "")) = false)
    (hp : st.tools_panel_open = false)
    (hr : (update_signature st "click" (pyGetD d.label "")).action_repeat_count < 7)
    (hsucc : normal_click_success env = false)
    (hcf : st.consecutive_failures + 1 < 8) :
    run_step cfg env step st =
      .next { update_signature st "click" (pyGetD d.label "") with
              consecutive_failures := st.consecutive_failures + 1 } := by
  rw [run_step_normal_click cfg env step st d hu hb hm ha hna hp hr]
  simp only [hsucc, Bool.false_eq_true, if_false, update_signature_failures, ge_iff_le]
  rw [if_neg (by omega : ¬ (8 : Nat) ≤ st.consecutive_failures + 1)]

theorem run_step_normal_click_f8 (cfg : RunCfg) (env : StepEnv) (step : Nat) (st : LoopSt)
    (d : Decision)
    (hu : env.uncaught = false)
    (hb : (detect_blocking_elements env.blocker_call).blocked = false)
    (hm : env.model_resp = .ok d)
    (ha : d.action = some "click")
    (hna : is_add_tool_click cfg.target_tool_name (pyStrip (pyGetD d.label "")) = false)
    (hp : st.tools_panel_open = false)
    (hr : (update_signature st "click" (pyGetD d.label "")).action_repeat_count < 7)
    (hsucc : normal_click_success env = false)
    (hcf : st.consecutive_failures + 1 ≥ 8) :
    run_step cfg env step st =
      .brk { update_signature st "click" (pyGetD d.label "") with
             consecutive_failures := st.consecutive_failures + 1,
             final_message := "Failed: Too many consecutive failures (" ++
                              toString (st.consecutive_failures + 1) ++ ")" } := by
  rw [run_step_normal_click cfg env step st d hu hb hm ha hna hp hr]
  simp only [hsucc, Bool.false_eq_true, if_false, update_signature_failures, ge_iff_le]
  rw [if_pos (by omega : (8 : Nat) ≤ st.consecutive_failures + 1)]

theorem streak_stall_aux (cfg : RunCfg) (envf : Nat → StepEnv) (d : Decision) :
    ∀ (l : List Nat) (st : LoopSt) (rest : List Nat),
      (∀ k ∈ l, (envf k).uncaught = false ∧
        (detect_blocking_elements (envf k).blocker_call).blocked = false ∧
        (envf k).model_resp = .ok d) →
      d.action = some "click" →
      is_add_tool_click cfg.target_tool_name (pyStrip (pyGetD d.label "")) = false →
      st.tools_panel_open = false →
      st.last_action = some "click" →
      st.last_label = some (pyGetD d.label "") →
      st.action_repeat_count + l.length = 7 →
      st.consecutive_failures + l.length ≤ 8 →
      l ≠ [] →
      ∃ st', run_loop cfg envf (l ++ rest) st = .ok st' ∧
        st'.final_message = "Failed: Stuck in loop on " ++ squote ++ "click" ++ ":" ++
          pyGetD d.label "" ++ squote ∧
        st'.final_status = st.final_status ∧
        st'.blocker_detected = st.blocker_detected := by
  intro l
  induction l with
  | nil =>
    intro st rest _ _ _ _ _ _ _ _ hne
    exact absurd rfl hne
  | cons k ks ih =>
    intro st rest hall ha hna hp hla hll harc hcf _
    simp only [List.length_cons] at harc hcf
    obtain ⟨hu, hb, hm⟩ := hall k (by simp)
    have hmatch : "click" ++ ":" ++ pyGetD d.label "" =
        pyFormatOpt st.last_action ++ ":" ++ pyFormatOpt st.last_label := by
      rw [hla, hll]
      rfl
    have hupd := update_signature_matched st "click" (pyGetD d.label "") hmatch
    by_cases hlast : ks = []
    · subst hlast
      simp only [List.length_nil] at harc hcf
      have hr : (update_signature st "click" (pyGetD d.label "")).action_repeat_count ≥ 7 := by
        rw [hupd]
        simp
        omega
      have hstep := run_step_stall cfg (envf k) k st d "click" hu hb hm ha hr
      refine ⟨{ update_signature st "click" (pyGetD d.label "") with
                final_message := "Failed: Stuck in loop on " ++ squote ++ "click" ++ ":" ++
                  pyGetD d.label "" ++ squote }, ?_, ?_, ?_, ?_⟩
      · simp only [List.cons_append, List.nil_append, run_loop, hstep]
      · rfl
      · simp
      · simp
    · have hkslen : 1 ≤ ks.length := by
        cases ks with
        | nil => exact absurd rfl hlast
        | cons a as => simp
      have hr : (update_signature st "click" (pyGetD d.label "")).action_repeat_count < 7 := by
        rw [hupd]
        simp
        omega
      by_cases hsucc : normal_click_success (envf k) = true
      · have hstep := run_step_normal_click_s cfg (envf k) k st d hu hb hm ha hna hp hr hsucc
        rw [hupd] at hstep
        have hnext :
            run_loop cfg envf ((k :: ks) ++ rest) st =
            run_loop cfg envf (ks ++ rest)
              { st with action_repeat_count := st.action_repeat_count + 1,
                        consecutive_failures := 0 } := by
          simp only [List.cons_append, run_loop, hstep, List.append_eq]
        rw [hnext]
        have := ih { st with action_repeat_count := st.action_repeat_count + 1,
                             consecutive_failures := 0 } rest
          (fun x hx => hall x (by simp [hx])) ha hna (by simp [hp]) (by simp [hla])
          (by simp [hll]) (by simp; omega) (by simp; omega) hlast
        obtain ⟨st', h1, h2, h3, h4⟩ := this
        exact ⟨st', h1, h2, by simpa using h3, by simpa using h4⟩
      · have hsucc' : normal_click_success (envf k) = false := by
          revert hsucc
          cases normal_click_success (envf k) <;> simp
        have hcfb : st.consecutive_failures + 1 < 8 := by
          omega
        have hstep := run_step_normal_click_f cfg (envf k) k st d hu hb hm ha hna hp hr hsucc' hcfb
        rw [hupd] at hstep
        have hnext :
            run_loop cfg envf ((k :: ks) ++ rest) st =
            run_loop cfg envf (ks ++ rest)
              { st with action_repeat_count := st.action_repeat_count + 1,
                        consecutive_failures := st.consecutive_failures + 1 } := by
          simp only [List.cons_append, run_loop, hstep, List.append_eq]
        rw [hnext]
        have := ih { st with action_repeat_count := st.action_repeat_count + 1,
                             consecutive_failures := st.consecutive_failures + 1 } rest
          (fun x hx => hall x (by simp [hx])) ha hna (by simp [hp]) (by simp [hla])
          (by simp [hll]) (by simp; omega) (by simp; omega) hlast
        obtain ⟨st', h1, h2, h3, h4⟩ := this
        exact ⟨st', h1, h2, by simpa using h3, by simpa using h4⟩

theorem update_signature_repeat_le (st : LoopSt) (a l : String) :
    (update_signature st a l).action_repeat_count ≤ st.action_repeat_count + 1 := by
  unfold update_signature
  split <;> simp

theorem exec_phase_add_success (cfg : RunCfg) (env : StepEnv) (st : LoopSt) (d : Decision)
    (hadd : is_add_tool_click cfg.target_tool_name (pyStrip (pyGetD d.label "")) = true)
    (hsucc : add_click_succeeded cfg env (pyStrip (pyGetD d.label "")) = true) :
    (∃ st', exec_phase cfg env st d "click" = .inl st' ∧ st'.action_repeat_count = 0 ∧
      st'.final_message = "Failed: Could not locate the tool add button after 5 attempts" ∧
      st'.final_status = "failed") ∨
    (∃ st', exec_phase cfg env st d "click" = .inr (true, st') ∧ st'.action_repeat_count = 0 ∧
      st'.final_message = st.final_message ∧ st'.final_status = st.final_status ∧
      st'.blocker_detected = st.blocker_detected) := by
  unfold exec_phase
  rw [if_pos rfl, if_pos hadd]
  unfold add_click_succeeded at hsucc
  cases htool : (match cfg.target_tool_name with
                 | some t => some t
                 | none => extract_tool_from_label (pyStrip (pyGetD d.label ""))) with
  | some t =>
    rw [htool] at hsucc
    have hsucc' : env.exec.add_clicked = true := hsucc
    simp only [htool]
    rw [if_pos hsucc']
    by_cases hdom : env.exec.add_dom_changed = true
    · rw [if_pos hdom]
      unfold add_halt_check
      split
      · exact Or.inl ⟨_, rfl, rfl, rfl, rfl⟩
      · exact Or.inr ⟨_, rfl, rfl, rfl, rfl, rfl⟩
    · rw [if_neg hdom]
      unfold add_halt_check
      split
      · exact Or.inl ⟨_, rfl, rfl, rfl, rfl⟩
      · exact Or.inr ⟨_, rfl, rfl, rfl, rfl, rfl⟩
  | none =>
    rw [htool] at hsucc
    have hsucc' : env.exec.plus_clicked = true := hsucc
    have httn : cfg.target_tool_name = none := by
      cases h : cfg.target_tool_name with
      | none => rfl
      | some t =>
        rw [h] at htool
        simp at htool
    simp only [htool, httn]
    rw [if_pos hsucc']
    by_cases hpanel : env.exec.panel_opened = true
    · rw [if_pos hpanel]
      unfold add_halt_check
      split
      · exact Or.inl ⟨_, rfl, rfl, rfl, rfl⟩
      · exact Or.inr ⟨_, rfl, rfl, rfl, rfl, rfl⟩
    · rw [if_neg hpanel]
      unfold add_halt_check
      split
      · exact Or.inl ⟨_, rfl, rfl, rfl, rfl⟩
      · exact Or.inr ⟨_, rfl, rfl, rfl, rfl, rfl⟩

theorem run_step_add_success (cfg : RunCfg) (env : StepEnv) (step : Nat) (st : LoopSt)
    (d : Decision)
    (hu : env.uncaught = false)
    (hb : (detect_blocking_elements env.blocker_call).blocked = false)
    (hm : env.model_resp = .ok d)
    (ha : d.action = some "click")
    (hadd : is_add_tool_click cfg.target_tool_name (pyStrip (pyGetD d.label "")) = true)
    (hsucc : add_click_succeeded cfg env (pyStrip (pyGetD d.label "")) = true)
    (hr : (update_signature st "click" (pyGetD d.label "")).action_repeat_count < 7) :
    (∃ st', run_step cfg env step st = .next st' ∧ st'.action_repeat_count = 0 ∧
      st'.final_message = st.final_message ∧ st'.final_status = st.final_status ∧
      st'.consecutive_failures = 0) ∨
    (∃ st', run_step cfg env step st = .brk st' ∧ st'.action_repeat_count = 0 ∧
      st'.final_message = "Failed: Could not locate the tool add button after 5 attempts" ∧
      st'.final_status = "failed") := by
  rw [run_step_exec_branch cfg env step st d "click" hu hb hm ha (by decide) hr]
  rcases exec_phase_add_success cfg env (update_signature st "click" (pyGetD d.label "")) d
      hadd hsucc with ⟨st', he, h0, hmsg, hstat⟩ | ⟨st', he, h0, hmsg, hstat, hbl⟩
  · rw [he]
    exact Or.inr ⟨st', rfl, h0, hmsg, hstat⟩
  · rw [he]
    refine Or.inl ⟨{ st' with consecutive_failures := 0 }, ?_, by simpa using h0,
      by simpa using hmsg, by simpa using hstat, rfl⟩
    simp

theorem add_streak_no_stall (cfg : RunCfg) (envf : Nat → StepEnv) (d : Decision) :
    ∀ (l : List Nat) (st : LoopSt),
      add_success_streak cfg envf d l →
      d.action = some "click" →
      is_add_tool_click cfg.target_tool_name (pyStrip (pyGetD d.label "")) = true →
      st.action_repeat_count = 0 →
      ∃ st', run_loop cfg envf l st = .ok st' ∧
        (st'.final_message = st.final_message ∨
         st'.final_message = "Failed: Could not locate the tool add button after 5 attempts") := by
  intro l
  induction l with
  | nil =>
    intro st _ _ _ _
    exact ⟨st, rfl, Or.inl rfl⟩
  | cons k ks ih =>
    intro st hstreak ha hadd harc
    obtain ⟨hu, hb, hm, hsucc, hrec⟩ := hstreak
    have hr : (update_signature st "click" (pyGetD d.label "")).action_repeat_count < 7 := by
      have := update_signature_repeat_le st "click" (pyGetD d.label "")
      omega
    rcases run_step_add_success cfg (envf k) k st d hu hb hm ha hadd hsucc hr with
      ⟨st', he, h0, hmsg, _, _⟩ | ⟨st', he, h0, hmsg, _⟩
    · have hnext : run_loop cfg envf (k :: ks) st = run_loop cfg envf ks st' := by
        simp only [run_loop, he]
      rw [hnext]
      obtain ⟨st'', h1, h2⟩ := ih st' hrec ha hadd h0
      refine ⟨st'', h1, ?_⟩
      rcases h2 with h2 | h2
      · exact Or.inl (h2.trans hmsg)
      · exact Or.inr h2
    · have hnext : run_loop cfg envf (k :: ks) st = .ok st' := by
        simp only [run_loop, he]
      exact ⟨st', hnext, Or.inr hmsg⟩

theorem add_halt_check_ok (st : LoopSt) (succ : Bool) (h : statusOK st.final_status) :
    execOutOK (add_halt_check st succ) := by
  unfold add_halt_check
  split
  · exact Or.inl rfl
  · exact h

set_option maxHeartbeats 1000000 in
theorem exec_phase_ok (cfg : RunCfg) (env : StepEnv) (st : LoopSt) (d : Decision) (a : String)
    (h : statusOK st.final_status) : execOutOK (exec_phase cfg env st d a) := by
  unfold exec_phase
  dsimp only []
  repeat' split
  all_goals first
  | exact add_halt_check_ok _ _ h
  | exact h

theorem finish_success_ok (st : LoopSt) (reason : String) :
    stepOutOK (finish_success st reason) :=
  Or.inr rfl

theorem early_and_finish_ok (env : StepEnv) (step : Nat) (st : LoopSt) (reason : String)
    (h : statusOK st.final_status) : stepOutOK (early_and_finish env step st reason) := by
  unfold early_and_finish
  dsimp only []
  repeat' split
  all_goals first
  | exact finish_success_ok _ _
  | exact h

theorem done_branch_ok (env : StepEnv) (step : Nat) (st : LoopSt) (reason : String)
    (h : statusOK st.final_status) : stepOutOK (done_branch env step st reason) := by
  unfold done_branch
  dsimp only []
  repeat' split
  all_goals first
  | exact Or.inl rfl
  | exact early_and_finish_ok _ _ _ _ h
  | exact h

theorem after_decision_ok (cfg : RunCfg) (env : StepEnv) (step : Nat) (st : LoopSt)
    (d : Decision) (h : statusOK st.final_status) :
    stepOutOK (after_decision cfg env step st d) := by
  unfold after_decision
  dsimp only []
  have h1 : statusOK (update_signature st (pyGetD d.action "unknown")
      (pyGetD d.label "")).final_status := by
    rw [update_signature_status]
    exact h
  split
  · exact h1
  · split
    · trivial
    · rename_i a ha
      split
      · exact done_branch_ok _ _ _ _ h1
      · split
        · rename_i st' heq
          have hex := exec_phase_ok cfg env
            (update_signature st (pyGetD d.action "unknown") (pyGetD d.label "")) d a h1
          rw [heq] at hex
          exact hex
        · rename_i succ st' heq
          have hex := exec_phase_ok cfg env
            (update_signature st (pyGetD d.action "unknown") (pyGetD d.label "")) d a h1
          rw [heq] at hex
          repeat' split
          all_goals exact hex

theorem decision_phase_ok (cfg : RunCfg) (env : StepEnv) (step : Nat) (st : LoopSt)
    (h : statusOK st.final_status) : stepOutOK (decision_phase cfg env step st) := by
  unfold decision_phase
  split
  · exact h
  · exact h
  · exact after_decision_ok cfg env step st _ h
  · exact after_decision_ok cfg env step st _ h

theorem blocker_phase_ok (cfg : RunCfg) (env : StepEnv) (step : Nat) (st : LoopSt)
    (h : statusOK st.final_status) : stepOutOK (blocker_phase cfg env step st) := by
  unfold blocker_phase
  dsimp only []
  repeat' split
  all_goals first
  | exact Or.inl rfl
  | exact h
  | exact decision_phase_ok cfg env step st h

theorem run_step_ok (cfg : RunCfg) (env : StepEnv) (step : Nat) (st : LoopSt)
    (h : statusOK st.final_status) : stepOutOK (run_step cfg env step st) := by
  unfold run_step
  split
  · trivial
  · dsimp only []
    split
    · exact Or.inl rfl
    · exact blocker_phase_ok cfg env step st h

theorem run_loop_ok (cfg : RunCfg) (env : Nat → StepEnv) :
    ∀ (l : List Nat) (st : LoopSt), statusOK st.final_status →
      (∀ st', run_loop cfg env l st = .ok st' → statusOK st'.final_status) := by
  intro l
  induction l with
  | nil =>
    intro st h st' he
    simp only [run_loop] at he
    cases he
    exact h
  | cons k ks ih =>
    intro st h st' he
    simp only [run_loop] at he
    have hso := run_step_ok cfg (env k) k st h
    revert he
    cases hrs : run_step cfg (env k) k st with
    | next st2 =>
      rw [hrs] at hso
      exact fun he => ih st2 hso st' he
    | brk st2 =>
      rw [hrs] at hso
      intro he
      cases he
      exact hso
    | fatal m =>
      intro he
      cases he

theorem run_loop_congr (cfg : RunCfg) (env env' : Nat → StepEnv) :
    ∀ (l : List Nat) (st : LoopSt), (∀ k ∈ l, env k = env' k) →
      run_loop cfg env l st = run_loop cfg env' l st := by
  intro l
  induction l with
  | nil => intro st _; rfl
  | cons k ks ih =>
    intro st hagree
    simp only [run_loop]
    rw [hagree k (by simp)]
    cases run_step cfg (env' k) k st with
    | next st2 => exact ih st2 (fun x hx => hagree x (by simp [hx]))
    | brk st2 => rfl
    | fatal m => rfl

theorem turnstile_poll_congr (poll poll' : Nat → PollOut)
    (hagree : ∀ i, i < 60 → poll i = poll' i) :
    ∀ (fuel attempt : Nat), attempt + fuel ≤ 60 →
      turnstile_poll poll attempt fuel = turnstile_poll poll' attempt fuel := by
  intro fuel
  induction fuel with
  | zero => intro attempt _; rfl
  | succ n ih =>
    intro attempt hle
    simp only [turnstile_poll]
    rw [hagree attempt (by omega)]
    cases poll' attempt with
    | ready token => rfl
    | failedOut desc => rfl
    | pending => exact ih (attempt + 1) (by omega)

theorem click_retry_congr (outs outs' : Nat → ClickAttempt)
    (hagree : ∀ i, 1 ≤ i → i ≤ 3 → outs i = outs' i) :
    ∀ (fuel k : Nat), 1 ≤ k → k + fuel ≤ 4 →
      click_retry_loop outs fuel k = click_retry_loop outs' fuel k := by
  intro fuel
  induction fuel with
  | zero => intro k _ _; rfl
  | succ n ih =>
    intro k hk hle
    simp only [click_retry_loop]
    rw [hagree k hk (by omega)]
    cases outs' k with
    | raises => exact ih (k + 1) (by omega) (by omega)
    | clickedExn => rfl
    | clickedGone => rfl
    | clickedStill visible =>
      dsimp only []
      by_cases hk3 : k < 3
      · rw [if_pos hk3, if_pos hk3]
        by_cases hv : visible = true
        · rw [if_pos hv, if_pos hv]
          exact ih (k + 1) (by omega) (by omega)
        · rw [if_neg hv, if_neg hv]
      · rw [if_neg hk3, if_neg hk3]

/-! Claim theorems. -/

/-- C1: the claim states that a `done` decision passing the keyword
filter reaches terminal success only after the secondary verification
confirmed completion, and that an INCOMPLETE-form response never yields
success.  The code violates this: the check at main.py line 1711 tests
whether COMPLETE occurs in the uppercased response, and COMPLETE is a
substring of INCOMPLETE, so a response of the INCOMPLETE form passes the
check and the step below terminates the run with status success. -/
theorem c1_incomplete_verification_passes_as_success :
    run_step demo_cfg c1_env 5 init_state =
      .brk ⟨0, some "done", some "", 0, false, false, 0, "success", "Success: Task finished"⟩ ∧
    pyIn "COMPLETE" (pyUpper "INCOMPLETE: the item was not added to the cart") = true := by
  decide

/-- C2 counterexample: the claim states that a non-empty unparseable
decision is retried without terminating the run and is never mapped to a
`done` decision.  On the step below the decision output is unparseable,
the loop maps it to the literal decision `done` with reason
`JSON parsing failed` (main.py line 1652), and the run terminates with
status success on that very step. -/
theorem c2_parse_error_becomes_done_cex :
    run_step demo_cfg c2_env 10 init_state =
      .brk ⟨0, some "done", some "", 0, false, false, 0, "success",
            "Success: JSON parsing failed"⟩ := by
  decide

/-- C2 (amended): an empty model response or a transport error sleeps
and moves to the next loop iteration with the state unchanged, while a
non-empty unparseable response is processed exactly like the literal
decision `done` with reason `JSON parsing failed`. -/
theorem c2_amended_parse_failure_handling :
    (∀ (cfg : RunCfg) (env : StepEnv) (step : Nat) (st : LoopSt),
        env.uncaught = false →
        (detect_blocking_elements env.blocker_call).blocked = false →
        env.model_resp = .empty →
        run_step cfg env step st = .next st) ∧
    (∀ (cfg : RunCfg) (env : StepEnv) (step : Nat) (st : LoopSt),
        env.uncaught = false →
        (detect_blocking_elements env.blocker_call).blocked = false →
        env.model_resp = .exn →
        run_step cfg env step st = .next st) ∧
    (∀ (cfg : RunCfg) (env : StepEnv) (step : Nat) (st : LoopSt),
        env.uncaught = false →
        (detect_blocking_elements env.blocker_call).blocked = false →
        env.model_resp = .parseError →
        run_step cfg env step st =
          after_decision cfg env step st ⟨some "done", none, none, some "JSON parsing failed"⟩) := by
  refine ⟨?_, ?_, ?_⟩ <;> intro cfg env step st hu hb hm <;>
    rw [run_step_to_decision cfg env step st hu hb] <;> simp [decision_phase, hm]

/-- C2 witness: the amended behavior at concrete inputs. -/
theorem c2_amended_witness :
    run_step demo_cfg base_env 10 init_state = .next init_state ∧
    run_step demo_cfg { base_env with model_resp := .parseError } 10 init_state =
      after_decision demo_cfg { base_env with model_resp := .parseError } 10 init_state
        ⟨some "done", none, none, some "JSON parsing failed"⟩ := by
  exact ⟨c2_amended_parse_failure_handling.1 demo_cfg base_env 10 init_state
           (by decide) (by decide) (by decide),
         c2_amended_parse_failure_handling.2.2 demo_cfg
           { base_env with model_resp := .parseError } 10 init_state
           (by decide) (by decide) (by decide)⟩

/-- C3 counterexample: the claim states that when a CAPTCHA is detected
and both solving attempts fail, the check routine signals stop.  On the
concrete environment below the challenge is visible and both attempts
fail, yet the routine returns `(False, None)` and the run continues. -/
theorem c3_unsolved_captcha_does_not_stop_cex :
    check_and_handle_captcha c3_env = (false, none) := by
  decide

/-- C3 (amended): `check_and_handle_captcha` returns `(False, None)` on
every solver outcome, so the captcha-failure termination branch of the
loop (main.py lines 1513-1518) is unreachable and every iteration that
does not raise proceeds to the blocker phase of the same step. -/
theorem c3_amended_captcha_gate_never_stops :
    (∀ cenv : CaptchaEnv, check_and_handle_captcha cenv = (false, none)) ∧
    (∀ (cfg : RunCfg) (env : StepEnv) (step : Nat) (st : LoopSt),
        env.uncaught = false →
        run_step cfg env step st = blocker_phase cfg env step st) :=
  ⟨check_and_handle_captcha_const, fun cfg env step st h => run_step_eq_blocker_phase cfg env step st h⟩

/-- C3 witness: the amended behavior at a concrete input. -/
theorem c3_amended_witness :
    run_step demo_cfg c1_env 1 init_state = blocker_phase demo_cfg c1_env 1 init_state :=
  c3_amended_captcha_gate_never_stops.2 demo_cfg c1_env 1 init_state (by decide)

/-- C4 counterexample: the claim states that after a successful login
popup dismissal the same step is re-evaluated without the step counter
advancing.  In the two-step run below the login wall at step 3 is
dismissed and the resulting iteration consumes the step-4 environment:
the run finishes with the step-4 decision reason, and replacing only the
step-4 environment changes the outcome to the timed-out exit, so the
iteration after the dismissal evaluated step 4, not step 3 again. -/
theorem c4_dismissed_login_advances_step_cex :
    run_loop demo_cfg c4_env [3, 4] init_state =
      .ok ⟨0, some "done", some "", 0, false, false, 0, "success",
           "Success: reached step four"⟩ ∧
    run_step demo_cfg (c4_env 3) 3 init_state = .next init_state ∧
    run_loop demo_cfg (fun k => if k = 4 then base_env else c4_env k) [3, 4] init_state =
      .ok init_state := by
  refine ⟨by decide, by decide, by decide⟩

/-- C4 (amended): when the blocker check runs and reports a login wall,
a failed dismissal terminates the run as failed with a message holding
the detector reason, while a successful dismissal continues the loop
with `consecutive_failures` reset to 0 — and, the loop being a Python
`for` over step indices, that continuation consumes the current index
and proceeds with the next step. -/
theorem c4_amended_login_blocker_handling :
    (∀ (cfg : RunCfg) (env : StepEnv) (step : Nat) (st : LoopSt),
        env.uncaught = false →
        (step % 3 = 0 || st.consecutive_failures > 2) = true →
        task_involves_login cfg.prompt = false →
        (detect_blocking_elements env.blocker_call).blocked = true →
        (detect_blocking_elements env.blocker_call).blocker_type = some "login" →
        (env.bypass_success = false →
          run_step cfg env step st =
            .brk { st with
                   final_message := "Failed: Login required - " ++
                     pyFormatOpt (detect_blocking_elements env.blocker_call).reason,
                   final_status := "failed", blocker_detected := true }) ∧
        (env.bypass_success = true →
          run_step cfg env step st = .next { st with consecutive_failures := 0 })) ∧
    (∀ (cfg : RunCfg) (envf : Nat → StepEnv) (k : Nat) (ks : List Nat) (st st' : LoopSt),
        run_step cfg (envf k) k st = .next st' →
        run_loop cfg envf (k :: ks) st = run_loop cfg envf ks st') := by
  constructor
  · intro cfg env step st hu hg hl hbl hty
    rw [run_step_eq_blocker_phase cfg env step st hu]
    unfold blocker_phase
    rw [if_pos hg]
    rw [if_pos (by simp [hl])]
    rw [if_pos hbl, if_pos hty]
    constructor
    · intro hbp
      rw [if_pos (by simp [hbp])]
    · intro hbp
      rw [if_neg (by simp [hbp])]
  · intro cfg envf k ks st st' h
    simp [run_loop, h]

/-- C4 witness: the amended behavior at concrete inputs. -/
theorem c4_amended_witness :
    run_step demo_cfg (c4_env 3) 3 init_state =
      .next { init_state with consecutive_failures := 0 } ∧
    run_loop demo_cfg c4_env (3 :: [4]) init_state =
      run_loop demo_cfg c4_env [4] { init_state with consecutive_failures := 0 } := by
  have h1 := (c4_amended_login_blocker_handling.1 demo_cfg (c4_env 3) 3 init_state
    (by decide) (by decide) (by decide) (by decide) (by decide)).2 (by decide)
  exact ⟨h1, c4_amended_login_blocker_handling.2 demo_cfg c4_env 3 [4] init_state
    { init_state with consecutive_failures := 0 } h1⟩

theorem varied_fail_aux (cfg : RunCfg) (envf : Nat → StepEnv) (ds : Nat → Decision) :
    ∀ (l : List Nat) (st : LoopSt) (rest : List Nat),
      varied_failing cfg envf ds l
        (pyFormatOpt st.last_action ++ ":" ++ pyFormatOpt st.last_label) →
      st.tools_panel_open = false →
      st.consecutive_failures + l.length = 8 →
      l ≠ [] →
      ∃ st', run_loop cfg envf (l ++ rest) st = .ok st' ∧
        st'.final_message = "Failed: Too many consecutive failures (8)" ∧
        st'.final_status = st.final_status ∧
        st'.blocker_detected = st.blocker_detected := by
  intro l
  induction l with
  | nil =>
    intro st rest _ _ _ hne
    exact absurd rfl hne
  | cons k ks ih =>
    intro st rest hvar hp hcf _
    simp only [List.length_cons] at hcf
    obtain ⟨hu, hb, hm, ha, hna, hfail, hfresh, hrec⟩ := hvar
    have hupd := update_signature_fresh st "click" (pyGetD (ds k).label "") hfresh
    have hr :
        (update_signature st "click" (pyGetD (ds k).label "")).action_repeat_count < 7 := by
      rw [hupd]
      simp
    by_cases hlast : ks = []
    · subst hlast
      simp only [List.length_nil] at hcf
      have hc8 : st.consecutive_failures + 1 ≥ 8 := by omega
      have hstep := run_step_normal_click_f8 cfg (envf k) k st (ds k) hu hb hm ha hna hp hr
        hfail hc8
      rw [hupd] at hstep
      have hm8 : "Failed: Too many consecutive failures (" ++
          toString (st.consecutive_failures + 1) ++ ")" =
          "Failed: Too many consecutive failures (8)" := by
        have hc : st.consecutive_failures + 1 = 8 := by omega
        rw [hc]
        decide
      rw [hm8] at hstep
      refine ⟨{ st with action_repeat_count := 0, last_action := some "click",
                        last_label := some (pyGetD (ds k).label ""),
                        consecutive_failures := st.consecutive_failures + 1,
                        final_message := "Failed: Too many consecutive failures (8)" },
              ?_, ?_, ?_, ?_⟩
      · simp only [List.cons_append, List.nil_append, run_loop, hstep]
      · rfl
      · rfl
      · rfl
    · have hcfb : st.consecutive_failures + 1 < 8 := by
        have : 1 ≤ ks.length := by
          cases ks with
          | nil => exact absurd rfl hlast
          | cons a as => simp
        omega
      have hstep := run_step_normal_click_f cfg (envf k) k st (ds k) hu hb hm ha hna hp hr
        hfail hcfb
      rw [hupd] at hstep
      have hnext :
          run_loop cfg envf ((k :: ks) ++ rest) st =
          run_loop cfg envf (ks ++ rest)
            { st with action_repeat_count := 0, last_action := some "click",
                      last_label := some (pyGetD (ds k).label ""),
                      consecutive_failures := st.consecutive_failures + 1 } := by
        simp only [List.cons_append, run_loop, hstep, List.append_eq]
      rw [hnext]
      have := ih
        { st with action_repeat_count := 0, last_action := some "click",
                  last_label := some (pyGetD (ds k).label ""),
                  consecutive_failures := st.consecutive_failures + 1 } rest
        (by simpa [pyFormatOpt] using hrec) (by simp [hp]) (by simp; omega) hlast
      obtain ⟨st', h1, h2, h3, h4⟩ := this
      exact ⟨st', h1, h2, by simpa using h3, by simpa using h4⟩

/-- C8: the main loop iterates over the fixed index list 1..50, so a run
consults at most the 50 step environments (two runs agreeing on steps
1..50 are equal) and always produces one of the three terminal statuses;
the CAPTCHA-solver polling consults at most 60 poll answers, and the
click retry loop consults at most the attempts 1..3. -/
theorem c8_bounded_run :
    (∀ (cfg : RunCfg) (env : Nat → StepEnv) (analysis : String),
        (run_agent_model cfg env analysis).status = "failed" ∨
        (run_agent_model cfg env analysis).status = "success" ∨
        (run_agent_model cfg env analysis).status = "error") ∧
    (∀ (cfg : RunCfg) (env env' : Nat → StepEnv) (analysis : String),
        (∀ k, 1 ≤ k → k ≤ 50 → env k = env' k) →
        run_agent_model cfg env analysis = run_agent_model cfg env' analysis) ∧
    (∀ (create : CreateOut) (poll poll' : Nat → PollOut),
        (∀ i, i < 60 → poll i = poll' i) →
        solve_cloudflare_turnstile create poll = solve_cloudflare_turnstile create poll') ∧
    (∀ (outs outs' : Nat → ClickAttempt),
        (∀ i, 1 ≤ i → i ≤ 3 → outs i = outs' i) →
        click_retry_loop outs 3 1 = click_retry_loop outs' 3 1) := by
  refine ⟨?_, ?_, ?_, ?_⟩
  · intro cfg env analysis
    cases hl : run_loop cfg env (List.range' 1 50) init_state with
    | ok st =>
      have hst := run_loop_ok cfg env (List.range' 1 50) init_state (Or.inl rfl) st hl
      unfold run_agent_model run_finalize
      rw [hl]
      dsimp only []
      split
      · rcases hst with h | h
        · exact Or.inl h
        · exact Or.inr (Or.inl h)
      · rcases hst with h | h
        · exact Or.inl h
        · exact Or.inr (Or.inl h)
    | error e =>
      unfold run_agent_model run_finalize
      rw [hl]
      exact Or.inr (Or.inr rfl)
  · intro cfg env env' analysis hagree
    unfold run_agent_model
    rw [run_loop_congr cfg env env' (List.range' 1 50) init_state]
    intro k hk
    rw [List.mem_range'] at hk
    obtain ⟨i, hi, rfl⟩ := hk
    exact hagree (1 + 1 * i) (by omega) (by omega)
  · intro create poll poll' hagree
    unfold solve_cloudflare_turnstile
    cases create with
    | exnOut msg => rfl
    | errorResp desc => rfl
    | taskMade tid => exact turnstile_poll_congr poll poll' hagree 60 0 (by omega)
  · intro outs outs' hagree
    exact click_retry_congr outs outs' hagree 3 1 (by omega) (by omega)

/-- C8 witness: the bounds at concrete inputs. -/
theorem c8_witness :
    ((run_agent_model demo_cfg c4_env "analysis text").status = "failed" ∨
     (run_agent_model demo_cfg c4_env "analysis text").status = "success" ∨
     (run_agent_model demo_cfg c4_env "analysis text").status = "error") ∧
    run_agent_model demo_cfg c4_env "analysis text" =
      run_agent_model demo_cfg (fun k => if k ≤ 50 then c4_env k else base_env)
        "analysis text" ∧
    solve_cloudflare_turnstile (.taskMade "task-1") (fun _ => .pending) =
      solve_cloudflare_turnstile (.taskMade "task-1")
        (fun i => if i < 60 then .pending else .ready (some "tok")) := by
  refine ⟨c8_bounded_run.1 demo_cfg c4_env "analysis text", ?_, ?_⟩
  · exact c8_bounded_run.2.1 demo_cfg c4_env _ "analysis text"
      (fun k h1 h2 => by simp [h2])
  · exact c8_bounded_run.2.2.1 (.taskMade "task-1") _ _ (fun i hi => by simp [hi])

/-- C10: when a click decision is classified as an add-tool click and
the add-button click succeeds, the repeat counter is reset to 0 even if
the decision signature matches the previous step (the step either
continues with the counter at 0, or breaks with the add-button give-up
message — never the stall message); consequently, over any stretch of
consecutively repeated successful add-tool clicks starting with the
counter at 0, the loop can only exit with its entry message untouched or
with the add-button give-up message, so the repeat-stall detector never
fires on such a stretch. -/
theorem c10_add_click_resets_repeat :
    (∀ (cfg : RunCfg) (env : StepEnv) (step : Nat) (st : LoopSt) (d : Decision),
        env.uncaught = false →
        (detect_blocking_elements env.blocker_call).blocked = false →
        env.model_resp = .ok d →
        d.action = some "click" →
        is_add_tool_click cfg.target_tool_name (pyStrip (pyGetD d.label "")) = true →
        add_click_succeeded cfg env (pyStrip (pyGetD d.label "")) = true →
        (update_signature st "click" (pyGetD d.label "")).action_repeat_count < 7 →
        (∃ st', run_step cfg env step st = .next st' ∧ st'.action_repeat_count = 0 ∧
          st'.final_message = st.final_message ∧ st'.final_status = st.final_status ∧
          st'.consecutive_failures = 0) ∨
        (∃ st', run_step cfg env step st = .brk st' ∧ st'.action_repeat_count = 0 ∧
          st'.final_message = "Failed: Could not locate the tool add button after 5 attempts" ∧
          st'.final_status = "failed")) ∧
    (∀ (cfg : RunCfg) (envf : Nat → StepEnv) (d : Decision) (l : List Nat) (st : LoopSt),
        add_success_streak cfg envf d l →
        d.action = some "click" →
        is_add_tool_click cfg.target_tool_name (pyStrip (pyGetD d.label "")) = true →
        st.action_repeat_count = 0 →
        ∃ st', run_loop cfg envf l st = .ok st' ∧
          (st'.final_message = st.final_message ∨
           st'.final_message = "Failed: Could not locate the tool add button after 5 attempts")) :=
  ⟨fun cfg env step st d hu hb hm ha hadd hsucc hr =>
     run_step_add_success cfg env step st d hu hb hm ha hadd hsucc hr,
   fun cfg envf d l st hstreak ha hadd harc =>
     add_streak_no_stall cfg envf d l st hstreak ha hadd harc⟩

/-- C10 witness: the repeat reset and the stall-free streak at concrete
inputs. -/
theorem c10_witness :
    ((∃ st', run_step demo_cfg (c10w_env 1) 1 init_state = .next st' ∧
        st'.action_repeat_count = 0 ∧
        st'.final_message = init_state.final_message ∧
        st'.final_status = init_state.final_status ∧
        st'.consecutive_failures = 0) ∨
      (∃ st', run_step demo_cfg (c10w_env 1) 1 init_state = .brk st' ∧
        st'.action_repeat_count = 0 ∧
        st'.final_message = "Failed: Could not locate the tool add button after 5 attempts" ∧
        st'.final_status = "failed")) ∧
    (∃ st', run_loop demo_cfg c10w_env [1, 2, 3] init_state = .ok st' ∧
      (st'.final_message = init_state.final_message ∨
       st'.final_message = "Failed: Could not locate the tool add button after 5 attempts")) := by
  constructor
  · exact c10_add_click_resets_repeat.1 demo_cfg (c10w_env 1) 1 init_state
      ⟨some "click", some "+", some "", some "open the tools panel"⟩
      (by decide) (by decide) (by decide) (by decide) (by decide) (by decide) (by decide)
  · exact c10_add_click_resets_repeat.2 demo_cfg c10w_env
      ⟨some "click", some "+", some "", some "open the tools panel"⟩ [1, 2, 3] init_state
      (by
        simp only [add_success_streak]
        repeat' first
        | exact trivial
        | refine ⟨by decide, ?_⟩) (by decide) (by decide) rfl

/-- C5 counterexample: the claim states that the identical
`(action, label)` pair on N consecutive steps with N at least 7 makes
the run terminate failed with a stall reason.  In the run below the
Decision Engine returns `click Next` on the seven consecutive steps 1-7
(each click succeeding), the repeat counter only reaches 6, and the run
then terminates with status success at step 8 — so seven identical
consecutive decisions do not trigger the stall stop. -/
theorem c5_seven_repeats_not_stalled_cex :
    run_agent_model demo_cfg c5cex_env "later analysis" =
      ⟨"success", "Success: all results were processed"⟩ := by
  decide

/-- C5 (amended): the stall stop needs 8 consecutive identical decisions
(the counter counts repeats after the first occurrence and the stop
fires at 7), and it needs none of those steps to reset the counter (a
successful add-tool or panel-tool click does).  For a fresh streak of 8
consecutive identical normal-click decisions, whatever the executor
reports on each, the loop exits with the stuck-in-loop message and the
failed status. -/
theorem c5_amended_stall_after_eight :
    ∀ (cfg : RunCfg) (envf : Nat → StepEnv) (d : Decision) (l : List Nat) (st : LoopSt)
      (rest : List Nat),
      (∀ k ∈ l, (envf k).uncaught = false ∧
        (detect_blocking_elements (envf k).blocker_call).blocked = false ∧
        (envf k).model_resp = .ok d) →
      d.action = some "click" →
      is_add_tool_click cfg.target_tool_name (pyStrip (pyGetD d.label "")) = false →
      st.tools_panel_open = false →
      "click" ++ ":" ++ pyGetD d.label "" ≠
        pyFormatOpt st.last_action ++ ":" ++ pyFormatOpt st.last_label →
      st.consecutive_failures = 0 →
      l.length = 8 →
      ∃ st', run_loop cfg envf (l ++ rest) st = .ok st' ∧
        st'.final_message = "Failed: Stuck in loop on " ++ squote ++ "click" ++ ":" ++
          pyGetD d.label "" ++ squote ∧
        st'.final_status = st.final_status := by
  intro cfg envf d l st rest hall ha hna hp hfresh hcf hlen
  cases l with
  | nil => simp at hlen
  | cons k ks =>
    simp only [List.length_cons] at hlen
    obtain ⟨hu, hb, hm⟩ := hall k (by simp)
    have hupd := update_signature_fresh st "click" (pyGetD d.label "") hfresh
    have hr : (update_signature st "click" (pyGetD d.label "")).action_repeat_count < 7 := by
      rw [hupd]
      simp
    by_cases hsucc : normal_click_success (envf k) = true
    · have hstep := run_step_normal_click_s cfg (envf k) k st d hu hb hm ha hna hp hr hsucc
      rw [hupd] at hstep
      have hnext :
          run_loop cfg envf ((k :: ks) ++ rest) st =
          run_loop cfg envf (ks ++ rest)
            { st with action_repeat_count := 0, last_action := some "click",
                      last_label := some (pyGetD d.label ""), consecutive_failures := 0 } := by
        simp only [List.cons_append, run_loop, hstep, List.append_eq]
      rw [hnext]
      have := streak_stall_aux cfg envf d ks
        { st with action_repeat_count := 0, last_action := some "click",
                  last_label := some (pyGetD d.label ""), consecutive_failures := 0 } rest
        (fun x hx => hall x (by simp [hx])) ha hna (by simp [hp]) rfl rfl
        (by simp; omega) (by simp; omega) (by intro hh; rw [hh] at hlen; simp at hlen)
      obtain ⟨st', h1, h2, h3, h4⟩ := this
      exact ⟨st', h1, h2, by simpa using h3⟩
    · have hsucc' : normal_click_success (envf k) = false := by
        revert hsucc
        cases normal_click_success (envf k) <;> simp
      have hstep := run_step_normal_click_f cfg (envf k) k st d hu hb hm ha hna hp hr hsucc'
        (by omega)
      rw [hupd] at hstep
      have hnext :
          run_loop cfg envf ((k :: ks) ++ rest) st =
          run_loop cfg envf (ks ++ rest)
            { st with action_repeat_count := 0, last_action := some "click",
                      last_label := some (pyGetD d.label ""),
                      consecutive_failures := st.consecutive_failures + 1 } := by
        simp only [List.cons_append, run_loop, hstep, List.append_eq]
      rw [hnext]
      have := streak_stall_aux cfg envf d ks
        { st with action_repeat_count := 0, last_action := some "click",
                  last_label := some (pyGetD d.label ""),
                  consecutive_failures := st.consecutive_failures + 1 } rest
        (fun x hx => hall x (by simp [hx])) ha hna (by simp [hp]) rfl rfl
        (by simp; omega) (by simp; omega) (by intro hh; rw [hh] at hlen; simp at hlen)
      obtain ⟨st', h1, h2, h3, h4⟩ := this
      exact ⟨st', h1, h2, by simpa using h3⟩

/-- C5 witness: the amended stall behavior at a concrete input. -/
theorem c5_amended_witness :
    ∃ st', run_loop demo_cfg c5w_env ([1, 2, 3, 4, 5, 6, 7, 8] ++ []) init_state = .ok st' ∧
      st'.final_message = "Failed: Stuck in loop on " ++ squote ++ "click" ++ ":" ++
        pyGetD (some "Next") "" ++ squote ∧
      st'.final_status = init_state.final_status :=
  c5_amended_stall_after_eight demo_cfg c5w_env
    ⟨some "click", some "Next", some "", some "advance"⟩ [1, 2, 3, 4, 5, 6, 7, 8] init_state []
    (by decide) rfl (by decide) rfl (by decide) rfl rfl

/-- C6 counterexample: the claim states that after 8 consecutive
executor failures the run terminates failed with a reason naming too
many consecutive failures.  In the run below the executor fails on steps
1-8 with a different decision signature each step and the loop does exit
through the consecutive-failure stop, but the message returned by the
run is the failure-analysis text — the consecutive-failure exit does not
set the blocker flag, so finalization replaces the loop message — and
the returned reason does not name the consecutive failures. -/
theorem c6_failure_reason_overwritten_cex :
    run_agent_model demo_cfg c6cex_env "The page did not load" =
      ⟨"failed", "Failed: The page did not load"⟩ ∧
    pyIn "consecutive" "Failed: The page did not load" = false := by
  decide

/-- C6 (amended): on 8 consecutive steps of normal click decisions with
pairwise different consecutive signatures on which the executor fails,
the run terminates with status failed and the loop-exit message names
too many consecutive failures (8); the returned response message is then
the failure-analysis text (see the counterexample).  Any executor
success resets the consecutive-failure counter to 0. -/
theorem c6_amended_eight_failures_stop :
    (∀ (cfg : RunCfg) (envf : Nat → StepEnv) (ds : Nat → Decision) (l : List Nat)
       (st : LoopSt) (rest : List Nat),
        varied_failing cfg envf ds l
          (pyFormatOpt st.last_action ++ ":" ++ pyFormatOpt st.last_label) →
        st.tools_panel_open = false →
        st.consecutive_failures = 0 →
        l.length = 8 →
        ∃ st', run_loop cfg envf (l ++ rest) st = .ok st' ∧
          st'.final_message = "Failed: Too many consecutive failures (8)" ∧
          st'.final_status = st.final_status) ∧
    (∀ (cfg : RunCfg) (env : StepEnv) (step : Nat) (st : LoopSt) (d : Decision),
        env.uncaught = false →
        (detect_blocking_elements env.blocker_call).blocked = false →
        env.model_resp = .ok d →
        d.action = some "click" →
        is_add_tool_click cfg.target_tool_name (pyStrip (pyGetD d.label "")) = false →
        st.tools_panel_open = false →
        (update_signature st "click" (pyGetD d.label "")).action_repeat_count < 7 →
        normal_click_success env = true →
        run_step cfg env step st =
          .next { update_signature st "click" (pyGetD d.label "") with
                  consecutive_failures := 0 }) := by
  constructor
  · intro cfg envf ds l st rest hvar hp hcf hlen
    have hne : l ≠ [] := by
      intro hh
      rw [hh] at hlen
      simp at hlen
    obtain ⟨st', h1, h2, h3, h4⟩ := varied_fail_aux cfg envf ds l st rest hvar hp
      (by omega) hne
    exact ⟨st', h1, h2, h3⟩
  · exact fun cfg env step st d hu hb hm ha hna hp hr hs =>
      run_step_normal_click_s cfg env step st d hu hb hm ha hna hp hr hs

set_option maxRecDepth 8192 in
/-- C6 witness: the amended behavior at concrete inputs. -/
theorem c6_amended_witness :
    (∃ st', run_loop demo_cfg c6w_env ([1, 2, 3, 4, 5, 6, 7, 8] ++ []) init_state = .ok st' ∧
      st'.final_message = "Failed: Too many consecutive failures (8)" ∧
      st'.final_status = init_state.final_status) ∧
    run_step demo_cfg (c5w_env 1) 1 init_state =
      .next { update_signature init_state "click" (pyGetD (some "Next") "") with
              consecutive_failures := 0 } := by
  constructor
  · exact c6_amended_eight_failures_stop.1 demo_cfg c6w_env c6w_ds [1, 2, 3, 4, 5, 6, 7, 8]
      init_state []
      (by
        simp only [varied_failing]
        repeat' first
        | exact trivial
        | refine ⟨by decide, ?_⟩) rfl rfl rfl
  · exact c6_amended_eight_failures_stop.2 demo_cfg (c5w_env 1) 1 init_state
      ⟨some "click", some "Next", some "", some "advance"⟩
      (by decide) (by decide) (by decide) (by decide) (by decide) rfl (by decide) (by decide)

/-- C7: a `done` decision whose rationale contains blocked, robot or
login (and not captcha) terminates the run immediately as failed with
that rationale as the message and the blocker flag set.  The equation
holds for every value of the verification oracle, so the secondary
verification call is never consulted on this path; and since the blocker
flag is set, the finalization keeps the message instead of replacing it
with the failure-analysis text. -/
theorem c7_blocker_keyword_short_circuit :
    (∀ (cfg : RunCfg) (env : StepEnv) (step : Nat) (st : LoopSt) (d : Decision),
        env.uncaught = false →
        (detect_blocking_elements env.blocker_call).blocked = false →
        env.model_resp = .ok d →
        d.action = some "done" →
        (update_signature st "done" (pyGetD d.label "")).action_repeat_count < 7 →
        blocker_keyword_hit (pyGetD d.reason "No reason provided") = true →
        run_step cfg env step st =
          .brk { update_signature st "done" (pyGetD d.label "") with
                 final_message := "Failed: " ++ pyGetD d.reason "No reason provided",
                 final_status := "failed", blocker_detected := true }) ∧
    (∀ (analysis : String) (st : LoopSt),
        st.final_status = "failed" → st.blocker_detected = true →
        run_finalize analysis (.ok st) = ⟨"failed", st.final_message⟩) := by
  constructor
  · intro cfg env step st d hu hb hm ha hr hkw
    rw [run_step_done_branch cfg env step st d hu hb hm ha hr]
    unfold done_branch
    rw [if_pos (by simp [hkw])]
  · intro analysis st h1 h2
    simp [run_finalize, h1, h2]

/-- C7 witness: the short circuit at a concrete input. -/
theorem c7_witness :
    run_step demo_cfg c7w_env 5 init_state =
      .brk { update_signature init_state "done" (pyGetD (some "") "") with
             final_message := "Failed: " ++
               pyGetD (some "A login wall is blocking progress") "No reason provided",
             final_status := "failed", blocker_detected := true } ∧
    run_finalize "ignored" (.ok ⟨0, none, none, 0, true, false, 0, "failed", "Failed: kept"⟩) =
      ⟨"failed", "Failed: kept"⟩ := by
  exact ⟨c7_blocker_keyword_short_circuit.1 demo_cfg c7w_env 5 init_state
           ⟨some "done", some "", some "", some "A login wall is blocking progress"⟩
           (by decide) (by decide) (by decide) (by decide) (by decide) (by decide),
         c7_blocker_keyword_short_circuit.2 "ignored"
           ⟨0, none, none, 0, true, false, 0, "failed", "Failed: kept"⟩ (by decide) (by decide)⟩

/-- C9: when a `done` decision passes the keyword filter at step four or
later, an exception of the secondary verification call is swallowed and
the run still terminates with status success; likewise a verification
response with no content, or with empty content, defaults to COMPLETE
and yields success. -/
theorem c9_swallowed_verification_yields_success :
    ∀ (cfg : RunCfg) (env : StepEnv) (step : Nat) (st : LoopSt) (d : Decision),
      env.uncaught = false →
      (detect_blocking_elements env.blocker_call).blocked = false →
      env.model_resp = .ok d →
      d.action = some "done" →
      (update_signature st "done" (pyGetD d.label "")).action_repeat_count < 7 →
      blocker_keyword_hit (pyGetD d.reason "No reason provided") = false →
      4 ≤ step →
      (env.verification = .exn ∨ env.verification = .resp none ∨
        env.verification = .resp (some "")) →
      run_step cfg env step st =
        .brk { update_signature st "done" (pyGetD d.label "") with
               final_message := "Success: " ++ pyGetD d.reason "No reason provided",
               final_status := "success" } := by
  intro cfg env step st d hu hb hm ha hr hkw hstep hv
  rw [run_step_done_branch cfg env step st d hu hb hm ha hr]
  unfold done_branch
  rw [if_neg (by simp [hkw])]
  have hs : ¬ step < 4 := by omega
  have hC : pyIn "COMPLETE" (pyUpper "COMPLETE") = true := by decide
  rcases hv with hv | hv | hv <;> rw [hv] <;>
    simp [early_and_finish, finish_success, hs, pyOrStr, hC]

/-- C9 witness: a swallowed verification exception at a concrete input. -/
theorem c9_witness :
    run_step demo_cfg c9w_env 6 init_state =
      .brk { update_signature init_state "done" (pyGetD (some "") "") with
             final_message := "Success: " ++ pyGetD (some "the order is placed") "No reason provided",
             final_status := "success" } :=
  c9_swallowed_verification_yields_success demo_cfg c9w_env 6 init_state
    ⟨some "done", some "", some "", some "the order is placed"⟩
    (by decide) (by decide) (by decide) (by decide) (by decide) (by decide) (by omega)
    (Or.inl (by decide))

end BrowserTool
